import Mathlib

/-!
Shallow embedding of `email-orchestrator-mcp.py` (an MCP server exposing
two tools, `send_email_direct` and `send_email_from_artifact`).

External collaborators are modelled as oracles supplied to each call:
the Supabase query result for a given artifact id (`World.db`) and the
SMTP transport outcome for the i-th send attempt of a call
(`World.smtp`, returning `none` for success or `some msg` for the
message of the raised transport exception).  Every branch of the Python
dispatcher is translated; raised Python exceptions become `Except`
errors carrying the exception's `str(e)` rendering, and the list of
messages actually handed to the transport is returned as a trace.
-/

/-- Rendering of the Python exceptions that can arise in `call_tool`:
`ValueError(msg)` (with `str(e) = msg`), `KeyError(key)` from a missing
dict key (with `str(e)` being the repr of the key, i.e. quoted), and the
`IndexError` raised by `results[0]` on an empty list. -/
inductive PyErr where
  | valueError (msg : String)
  | keyError (key : String)
  | indexError
deriving DecidableEq

/-- Python `str(e)` for the exceptions above. -/
def PyErr.toText : PyErr → String
  | .valueError m => m
  | .keyError k => "\x27" ++ k ++ "\x27"
  | .indexError => "list index out of range"

/-- The JSON value bound to the `to` argument: a single string or an
array of strings, mirroring the `oneOf` input schema. -/
inductive Val where
  | s (x : String)
  | l (xs : List String)
deriving DecidableEq

/-- Python f-string rendering of a `to` value: a string renders as
itself, a list as its repr (quotes inside elements are not escaped in
this model; no claim exercises such inputs). -/
def Val.pyStr : Val → String
  | .s x => x
  | .l xs => "[" ++ String.intercalate ", " (xs.map (fun x => "\x27" ++ x ++ "\x27")) ++ "]"

/-- A row of the `email_artifacts` table, restricted to the two fields
the program reads; `none` models an absent key for `dict.get`. -/
structure Artifact where
  title : Option String
  html_template : Option String
deriving DecidableEq

/-- Result of the Supabase query
`table("email_artifacts").select("*").eq("id", artifact_id).execute()`:
either a row list (`response.data`) or a raised transport/query error. -/
inductive QueryResult where
  | rows (data : List Artifact)
  | fail (msg : String)
deriving DecidableEq

/-- `EmailOrchestrator.get_email_artifact` (lines 41-52).  The
`raise ValueError(... not found)` for an empty `response.data` happens
inside the same `try`, so the `except Exception` clause catches it and
re-wraps it with the `Failed to retrieve email artifact: ` message. -/
def get_email_artifact (resp : QueryResult) (artifact_id : String) : Except PyErr Artifact :=
  match resp with
  | .fail e => .error (.valueError ("Failed to retrieve email artifact: " ++ e))
  | .rows [] =>
      .error (.valueError ("Failed to retrieve email artifact: " ++
        ("Email artifact with ID " ++ artifact_id ++ " not found")))
  | .rows (a :: _) => .ok a

/-- The message handed to `server.send_message`: headers `From`, `To`,
`Subject` and the attached HTML part. -/
structure SentMsg where
  from_ : String
  «to» : Val
  subject : String
  html : String
deriving DecidableEq

/-- The dict returned by a successful `EmailOrchestrator.send_email`. -/
structure SendResult where
  success : Bool
  message : String
  «to» : Val
  subject : String
  context : String
  content_length : Nat
deriving DecidableEq

/-- `EmailOrchestrator.send_email` (lines 54-83).  `outcome` is the
transport oracle for this attempt; `none` means the SMTP session
succeeded, `some e` that it raised with message `e`, which the
`except` clause wraps as `Failed to send email: `.  The second
component is the trace of messages given to the transport. -/
def send_email (outcome : SentMsg → Option String) (from_ : String) («to» : Val)
    (subject html_content context : String) :
    Except PyErr SendResult × List SentMsg :=
  let msg : SentMsg := ⟨from_, «to», subject, html_content⟩
  match outcome msg with
  | some e => (.error (.valueError ("Failed to send email: " ++ e)), [msg])
  | none =>
      (.ok ⟨true, "Email sent successfully", «to», subject, context, html_content.length⟩, [msg])

/-- The arguments dict of a tool call; `none` models an absent key. -/
structure Arguments where
  «to» : Option Val
  subject : Option String
  html_content : Option String
  context : Option String
  artifact_id : Option String
deriving DecidableEq

/-- The external collaborators of one `call_tool` invocation:
the configured sender identity (`self.smtp_username`), the datastore
response per artifact id, and the transport outcome per attempt index
and message. -/
structure World where
  username : String
  db : String → QueryResult
  smtp : Nat → SentMsg → Option String

/-- The `for recipient in recipients` loop of lines 198-200: sends
sequentially starting at attempt index `i`, stops at the first raised
send error, and accumulates the result dicts and the transport trace. -/
def sendLoop (smtp : Nat → SentMsg → Option String) (from_ : String)
    (recipients : List String) (subject html_content context : String) (i : Nat) :
    Except PyErr (List SendResult) × List SentMsg :=
  match recipients with
  | [] => (.ok [], [])
  | r :: rs =>
    match send_email (smtp i) from_ (.s r) subject html_content context with
    | (.error e, tr) => (.error e, tr)
    | (.ok res, tr) =>
      match sendLoop smtp from_ rs subject html_content context (i + 1) with
      | (.error e, tr2) => (.error e, tr ++ tr2)
      | (.ok ress, tr2) => (.ok (res :: ress), tr ++ tr2)

/-- The `send_email_direct` branch of `call_tool` (lines 163-178),
including the `KeyError`s of the dict accesses and the
`arguments.get("context", "Direct email")` default. -/
def direct_branch (w : World) (args : Arguments) :
    Except PyErr (List String) × List SentMsg :=
  match args.«to» with
  | none => (.error (.keyError "to"), [])
  | some «to» =>
  match args.subject with
  | none => (.error (.keyError "subject"), [])
  | some subject =>
  match args.html_content with
  | none => (.error (.keyError "html_content"), [])
  | some html_content =>
  match send_email (w.smtp 0) w.username «to» subject html_content
      (args.context.getD "Direct email") with
  | (.error e, tr) => (.error e, tr)
  | (.ok result, tr) =>
      (.ok ["✅ Email sent successfully!\nTo: " ++ result.«to».pyStr ++
            "\nSubject: " ++ result.subject ++
            "\nContext: " ++ result.context ++
            "\nContent length: " ++ toString result.content_length ++ " characters"], tr)

/-- Line 195, `recipients = to if isinstance(to, list) else [to]`:
normalize the `to` argument into an ordered recipient list, a single
string becoming a one-element list; no deduplication. -/
def recipients_of : Val → List String
  | .l xs => xs
  | .s x => [x]

/-- The `send_email_from_artifact` branch of `call_tool`
(lines 180-224): fetch, field validation, `to` normalization, the send
loop, and the single-recipient / aggregate success formatting.  The
source's local assignments (`subject`, `html_content`, `recipients`,
`recipient_list`) are substituted at their use sites, which preserves
the behaviour since all are pure.  In the aggregate branch `results[0]`
raises `IndexError` when `results` is empty, exactly as the Python
subscript does. -/
def artifact_branch (w : World) (args : Arguments) :
    Except PyErr (List String) × List SentMsg :=
  match args.«to» with
  | none => (.error (.keyError "to"), [])
  | some «to» =>
  match args.artifact_id with
  | none => (.error (.keyError "artifact_id"), [])
  | some artifact_id =>
  match get_email_artifact (w.db artifact_id) artifact_id with
  | .error e => (.error e, [])
  | .ok artifact =>
  if artifact.title.getD "" = "" ∨ artifact.html_template.getD "" = "" then
    (.error (.valueError "Email artifact missing required fields: title or html_template"), [])
  else
  match sendLoop w.smtp w.username (recipients_of «to») (artifact.title.getD "")
      (artifact.html_template.getD "") ("Email from artifact " ++ artifact_id) 0 with
  | (.error e, tr) => (.error e, tr)
  | (.ok results, tr) =>
    if (recipients_of «to»).length = 1 then
      match results with
      | [] => (.error .indexError, tr)
      | result :: _ =>
          (.ok ["✅ Email sent from artifact!\nTo: " ++ result.«to».pyStr ++
                "\nSubject: " ++ result.subject ++
                "\nArtifact ID: " ++ artifact_id ++
                "\nArtifact Title: " ++ artifact.title.getD "Unknown" ++
                "\nContent length: " ++ toString result.content_length ++ " characters"], tr)
    else
      match results with
      | [] => (.error .indexError, tr)
      | r0 :: _ =>
          (.ok ["✅ Email sent from artifact to " ++ toString (recipients_of «to»).length ++
                " recipients!\nTo: " ++
                String.intercalate ", " (results.map (fun r => r.«to».pyStr)) ++
                "\nSubject: " ++ r0.subject ++
                "\nArtifact ID: " ++ artifact_id ++
                "\nArtifact Title: " ++ artifact.title.getD "Unknown" ++
                "\nContent length: " ++ toString r0.content_length ++ " characters"], tr)

/-- The body of the `try` in `call_tool` (lines 162-227): dispatch by
tool name; an unknown name raises `ValueError("Unknown tool: ...")`.
The `List String` holds the texts of the returned `TextContent` items
(every return site of the source returns a one-element list). -/
def handle (w : World) (name : String) (args : Arguments) :
    Except PyErr (List String) × List SentMsg :=
  if name = "send_email_direct" then direct_branch w args
  else if name = "send_email_from_artifact" then artifact_branch w args
  else (.error (.valueError ("Unknown tool: " ++ name)), [])

/-- `call_tool` (lines 156-233): the `except Exception` boundary turns
any raised error into a single `❌ Error: `-prefixed text reply. -/
def call_tool (w : World) (name : String) (args : Arguments) :
    List String × List SentMsg :=
  match handle w name args with
  | (.ok texts, tr) => (texts, tr)
  | (.error e, tr) => (["❌ Error: " ++ e.toText], tr)

/-- The value declared for the `context` property's `default` in the
`send_email_direct` input schema (line 119 of the source). -/
def context_schema_default : String := ""

/-- Python truthiness test `not x` for `os.getenv` results: absent
(`None`) and the empty string are falsy. -/
def pyFalsy : Option String → Bool
  | none => true
  | some s => s == ""

/-- Numeric value of a digit string. -/
def digitsVal (cs : List Char) : Nat :=
  cs.foldl (fun a c => a * 10 + (c.toNat - 48)) 0

/-- Surrounding-whitespace strip over the character list. -/
def pyStrip (cs : List Char) : List Char :=
  ((cs.dropWhile Char.isWhitespace).reverse.dropWhile Char.isWhitespace).reverse

/-- Model of Python `int(s)` for base 10: strips surrounding
whitespace, accepts an optional sign followed by at least one digit
(digit-group underscores are not modelled; no claim uses them).
Returns `none` where `int` raises `ValueError`. -/
def pyInt? (s : String) : Option Int :=
  match pyStrip s.toList with
  | '-' :: ds =>
      if ds ≠ [] ∧ ds.all Char.isDigit then some (-(digitsVal ds : Int)) else none
  | '+' :: ds =>
      if ds ≠ [] ∧ ds.all Char.isDigit then some ((digitsVal ds : Int)) else none
  | ds =>
      if ds ≠ [] ∧ ds.all Char.isDigit then some ((digitsVal ds : Int)) else none

/-- The configuration attributes set by `EmailOrchestrator.__init__`
(lines 21-38); the four credential attributes keep their raw
`os.getenv` results. -/
structure Config where
  smtp_server : String
  smtp_port : Int
  smtp_username : Option String
  smtp_password : Option String
  supabase_url : Option String
  supabase_key : Option String
deriving DecidableEq

/-- `EmailOrchestrator.__init__` (lines 21-38) over an environment
`env`: defaults for host and port, `int` conversion of the port (which
raises before the credential checks), then the two falsy-credential
checks.  `create_client` is an external collaborator and is not
modelled beyond reaching it.  The source's attribute assignments are
inlined at their use sites (all are pure reads of `env`). -/
def EmailOrchestrator.init (env : String → Option String) : Except PyErr Config :=
  match pyInt? ((env "SMTP_PORT").getD "587") with
  | none =>
      .error (.valueError ("invalid literal for int() with base 10: \x27" ++
        (env "SMTP_PORT").getD "587" ++ "\x27"))
  | some smtp_port =>
    if pyFalsy (env "SMTP_USERNAME") || pyFalsy (env "SMTP_PASSWORD") then
      .error (.valueError "SMTP_USERNAME and SMTP_PASSWORD environment variables required")
    else if pyFalsy (env "SUPABASE_URL") || pyFalsy (env "SUPABASE_KEY") then
      .error (.valueError "SUPABASE_URL and SUPABASE_KEY environment variables required")
    else
      .ok ⟨(env "SMTP_SERVER").getD "smtp.gmail.com", smtp_port, env "SMTP_USERNAME",
        env "SMTP_PASSWORD", env "SUPABASE_URL", env "SUPABASE_KEY"⟩

/-! Concrete collaborator instances used to exercise the model. -/

/-- A world whose datastore holds one complete artifact for every id and
whose transport always succeeds. -/
def okWorld : World :=
  ⟨"sender@example.com",
   fun _ => QueryResult.rows [⟨some "Welcome", some "<p>hi</p>"⟩],
   fun _ _ => none⟩

/-- Same datastore as `okWorld`, but the transport raises `boom` on the
second send attempt (index 1) of a call. -/
def failSecondWorld : World :=
  ⟨"sender@example.com",
   fun _ => QueryResult.rows [⟨some "Welcome", some "<p>hi</p>"⟩],
   fun i _ => if i = 1 then some "boom" else none⟩

/-- A world whose artifact rows lack the `title` field. -/
def noTitleWorld : World :=
  ⟨"sender@example.com",
   fun _ => QueryResult.rows [⟨none, some "<p>hi</p>"⟩],
   fun _ _ => none⟩

/-- An environment with the four required settings, host and port unset. -/
def envGood : String → Option String := fun k =>
  if k = "SMTP_USERNAME" then some "user"
  else if k = "SMTP_PASSWORD" then some "pw"
  else if k = "SUPABASE_URL" then some "https://db.example"
  else if k = "SUPABASE_KEY" then some "key"
  else none

/-- An environment where all four required settings are present but the
mail username is the empty string. -/
def envEmptyUser : String → Option String := fun k =>
  if k = "SMTP_USERNAME" then some ""
  else if k = "SMTP_PASSWORD" then some "pw"
  else if k = "SUPABASE_URL" then some "https://db.example"
  else if k = "SUPABASE_KEY" then some "key"
  else none

/-- C1: a `send_email_from_artifact` call whose fetched artifact has an
empty or absent `title` or `html_template` fails with the message
`Email artifact missing required fields: title or html_template` and
attempts no send (the transport trace is empty). -/
theorem artifact_missing_fields_no_send (w : World) (t : Val) (artifact_id : String)
    (a : Artifact) (rest : List Artifact)
    (hdb : w.db artifact_id = QueryResult.rows (a :: rest))
    (hmiss : a.title.getD "" = "" ∨ a.html_template.getD "" = "") :
    call_tool w "send_email_from_artifact" ⟨some t, none, none, none, some artifact_id⟩ =
      (["❌ Error: " ++ "Email artifact missing required fields: title or html_template"], []) := by
  have hget : get_email_artifact (w.db artifact_id) artifact_id = Except.ok a := by
    rw [hdb]; rfl
  rcases hmiss with hm | hm <;>
    simp [call_tool, handle, artifact_branch, hget, hm, PyErr.toText]

/-- Witness for C1 at a concrete artifact with no `title`. -/
theorem artifact_missing_fields_no_send_witness :
    call_tool noTitleWorld "send_email_from_artifact"
      ⟨some (Val.l ["a@x.com"]), none, none, none, some "123"⟩ =
      (["❌ Error: " ++ "Email artifact missing required fields: title or html_template"], []) :=
  artifact_missing_fields_no_send noTitleWorld (Val.l ["a@x.com"]) "123"
    ⟨none, some "<p>hi</p>"⟩ [] rfl (Or.inl rfl)

/-- C4 counterexample: when the query returns no row, the not-found
failure is not a separate unwrapped error: it surfaces wrapped by the
`Failed to retrieve email artifact: ` retrieval wrapper, because the
`raise` sits inside the same `try` as the query. -/
theorem fetch_notfound_wrapped_cex :
    get_email_artifact (QueryResult.rows []) "123" =
      Except.error (PyErr.valueError ("Failed to retrieve email artifact: " ++
        "Email artifact with ID 123 not found")) ∧
    ∃ inner, get_email_artifact (QueryResult.rows []) "123" =
      Except.error (PyErr.valueError ("Failed to retrieve email artifact: " ++ inner)) :=
  ⟨rfl, ⟨"Email artifact with ID 123 not found", rfl⟩⟩

/-- C4 amended: both failure kinds of `get_email_artifact` carry the
retrieval wrapper; the no-row case wraps the distinguishable
`Email artifact with ID ... not found` message, a query failure wraps
the underlying message. -/
theorem fetch_failure_messages (artifact_id e : String) :
    get_email_artifact (QueryResult.fail e) artifact_id =
      Except.error (PyErr.valueError ("Failed to retrieve email artifact: " ++ e)) ∧
    get_email_artifact (QueryResult.rows []) artifact_id =
      Except.error (PyErr.valueError ("Failed to retrieve email artifact: " ++
        ("Email artifact with ID " ++ artifact_id ++ " not found"))) :=
  ⟨rfl, rfl⟩

/-- C5 (code bug): the input schema declares `""` as the default for
`context`, but a `send_email_direct` call without `context` reports
`Context: Direct email`, the dispatcher's hard-coded default. -/
theorem direct_default_context_bug :
    context_schema_default = "" ∧
    call_tool okWorld "send_email_direct"
      ⟨some (Val.s "a@x.com"), some "Hi", some "<p>hi</p>", none, none⟩ =
      (["✅ Email sent successfully!\nTo: a@x.com\nSubject: Hi\nContext: Direct email\nContent length: 9 characters"],
       [⟨"sender@example.com", Val.s "a@x.com", "Hi", "<p>hi</p>"⟩]) :=
  ⟨rfl, rfl⟩

/-- C6: a `send_email_from_artifact` call with `to` a single string is
observably identical (same reply, same transport trace) to the call
with `to` the one-element list of the same address. -/
theorem to_string_list_equivalent (w : World) (a artifact_id : String)
    (sj hc cx : Option String) :
    call_tool w "send_email_from_artifact" ⟨some (Val.s a), sj, hc, cx, some artifact_id⟩ =
    call_tool w "send_email_from_artifact" ⟨some (Val.l [a]), sj, hc, cx, some artifact_id⟩ :=
  rfl

/-- C10: a `send_email_from_artifact` call with an empty recipient list
and a valid artifact attempts no send and yields an error reply: the
aggregate branch's `results[0]` raises `IndexError`, which the
dispatcher boundary renders as an error text. -/
theorem empty_recipient_list_error (w : World) (artifact_id : String)
    (a : Artifact) (rest : List Artifact)
    (hdb : w.db artifact_id = QueryResult.rows (a :: rest))
    (ht : a.title.getD "" ≠ "") (hh : a.html_template.getD "" ≠ "") :
    call_tool w "send_email_from_artifact" ⟨some (Val.l []), none, none, none, some artifact_id⟩ =
      (["❌ Error: " ++ "list index out of range"], []) := by
  have hget : get_email_artifact (w.db artifact_id) artifact_id = Except.ok a := by
    rw [hdb]; rfl
  simp [call_tool, handle, artifact_branch, recipients_of, hget, ht, hh, sendLoop, PyErr.toText]

/-- Witness for C10 at a concrete world with a complete artifact. -/
theorem empty_recipient_list_error_witness :
    call_tool okWorld "send_email_from_artifact"
      ⟨some (Val.l []), none, none, none, some "123"⟩ =
      (["❌ Error: " ++ "list index out of range"], []) :=
  empty_recipient_list_error okWorld "123" ⟨some "Welcome", some "<p>hi</p>"⟩ []
    rfl (by decide) (by decide)

/-- All transport attempts from index `i` on succeed: the loop returns
one result dict per recipient and a trace with one message per
recipient, both in list order. -/
theorem sendLoop_all_ok (smtp : Nat → SentMsg → Option String) (u : String)
    (rs : List String) (sj hb cx : String) (i : Nat)
    (hok : ∀ j r, rs[j]? = some r → smtp (i + j) ⟨u, Val.s r, sj, hb⟩ = none) :
    sendLoop smtp u rs sj hb cx i =
      (Except.ok (rs.map (fun r =>
          (⟨true, "Email sent successfully", Val.s r, sj, cx, hb.length⟩ : SendResult))),
       rs.map (fun r => (⟨u, Val.s r, sj, hb⟩ : SentMsg))) := by
  induction rs generalizing i with
  | nil => rfl
  | cons r rs ih =>
    have h0 : smtp i ⟨u, Val.s r, sj, hb⟩ = none := by
      simpa using hok 0 r (by simp)
    have hok2 : ∀ j r2, rs[j]? = some r2 → smtp (i + 1 + j) ⟨u, Val.s r2, sj, hb⟩ = none := by
      intro j r2 hj
      have hx := hok (j + 1) r2 (by simpa using hj)
      have ha : i + (j + 1) = i + 1 + j := by omega
      rwa [ha] at hx
    simp [sendLoop, send_email, h0, ih (i + 1) hok2]

/-- Inversion: if the loop returned `ok`, every attempt succeeded and
the results and trace are exactly the per-recipient maps. -/
theorem sendLoop_ok_inv (smtp : Nat → SentMsg → Option String) (u : String)
    (rs : List String) (sj hb cx : String) (i : Nat)
    (results : List SendResult) (tr : List SentMsg)
    (hk : sendLoop smtp u rs sj hb cx i = (Except.ok results, tr)) :
    results = rs.map (fun r =>
        (⟨true, "Email sent successfully", Val.s r, sj, cx, hb.length⟩ : SendResult)) ∧
    tr = rs.map (fun r => (⟨u, Val.s r, sj, hb⟩ : SentMsg)) := by
  induction rs generalizing i results tr with
  | nil =>
    simp [sendLoop] at hk
    simp [hk]
  | cons r rs ih =>
    simp only [sendLoop, send_email] at hk
    cases ho : smtp i ⟨u, Val.s r, sj, hb⟩ with
    | some e => rw [ho] at hk; simp at hk
    | none =>
      rw [ho] at hk
      rcases hrec : sendLoop smtp u rs sj hb cx (i + 1) with ⟨res, tr2⟩
      rw [hrec] at hk
      cases res with
      | error e => simp at hk
      | ok ress =>
        simp only [Prod.mk.injEq, Except.ok.injEq] at hk
        obtain ⟨hres, htr⟩ := ih (i + 1) ress tr2 hrec
        constructor
        · rw [← hk.1, hres]; simp
        · rw [← hk.2, htr]; simp

/-- The first `front.length` attempts succeed and the next one fails
with message `e`: the loop stops there with the wrapped send error,
having attempted every recipient up to and including the failing one. -/
theorem sendLoop_front_err (smtp : Nat → SentMsg → Option String) (u : String)
    (front : List String) (lastR : String) (sj hb cx : String) (i : Nat) (e : String)
    (hok : ∀ j r, front[j]? = some r → smtp (i + j) ⟨u, Val.s r, sj, hb⟩ = none)
    (hf : smtp (i + front.length) ⟨u, Val.s lastR, sj, hb⟩ = some e) :
    sendLoop smtp u (front ++ [lastR]) sj hb cx i =
      (Except.error (PyErr.valueError ("Failed to send email: " ++ e)),
       (front ++ [lastR]).map (fun r => (⟨u, Val.s r, sj, hb⟩ : SentMsg))) := by
  induction front generalizing i with
  | nil =>
    have hf0 : smtp i ⟨u, Val.s lastR, sj, hb⟩ = some e := by simpa using hf
    simp [sendLoop, send_email, hf0]
  | cons r front ih =>
    have h0 : smtp i ⟨u, Val.s r, sj, hb⟩ = none := by
      simpa using hok 0 r (by simp)
    have hok2 : ∀ j r2, front[j]? = some r2 → smtp (i + 1 + j) ⟨u, Val.s r2, sj, hb⟩ = none := by
      intro j r2 hj
      have hx := hok (j + 1) r2 (by simpa using hj)
      have ha : i + (j + 1) = i + 1 + j := by omega
      rwa [ha] at hx
    have hf2 : smtp (i + 1 + front.length) ⟨u, Val.s lastR, sj, hb⟩ = some e := by
      have ha : i + (r :: front).length = i + 1 + front.length := by
        simp [List.length_cons]; omega
      rwa [ha] at hf
    simp [sendLoop, send_email, h0, ih (i + 1) hok2 hf2]

/-- C2: with N recipients where the first N-1 transport attempts
succeed and the N-th fails with message `e`, all N sends are attempted
in list order and the call returns the single wrapped error reply, with
no partial-success summary. -/
theorem partial_failure_single_error_reply (w : World) (artifact_id : String)
    (a : Artifact) (rest : List Artifact) (title hb : String)
    (front : List String) (lastR e : String)
    (hdb : w.db artifact_id = QueryResult.rows (a :: rest))
    (htitle : a.title = some title) (ht : title ≠ "")
    (hhtml : a.html_template = some hb) (hh : hb ≠ "")
    (hok : ∀ j r, front[j]? = some r → w.smtp j ⟨w.username, Val.s r, title, hb⟩ = none)
    (hf : w.smtp front.length ⟨w.username, Val.s lastR, title, hb⟩ = some e) :
    call_tool w "send_email_from_artifact"
      ⟨some (Val.l (front ++ [lastR])), none, none, none, some artifact_id⟩ =
      (["❌ Error: " ++ ("Failed to send email: " ++ e)],
       (front ++ [lastR]).map (fun r => (⟨w.username, Val.s r, title, hb⟩ : SentMsg))) := by
  have hget : get_email_artifact (w.db artifact_id) artifact_id = Except.ok a := by
    rw [hdb]; rfl
  have hloop := sendLoop_front_err w.smtp w.username front lastR title hb
      ("Email from artifact " ++ artifact_id) 0 e (by simpa using hok) (by simpa using hf)
  simp [call_tool, handle, artifact_branch, recipients_of, hget, htitle, hhtml, ht, hh,
    hloop, PyErr.toText]

/-- Witness for C2: two recipients, the second attempt raising `boom`;
both sends are attempted and the call yields one error reply. -/
theorem partial_failure_single_error_reply_witness :
    call_tool failSecondWorld "send_email_from_artifact"
      ⟨some (Val.l ["a@x.com", "b@x.com"]), none, none, none, some "123"⟩ =
      (["❌ Error: " ++ ("Failed to send email: " ++ "boom")],
       [⟨"sender@example.com", Val.s "a@x.com", "Welcome", "<p>hi</p>"⟩,
        ⟨"sender@example.com", Val.s "b@x.com", "Welcome", "<p>hi</p>"⟩]) := by
  have h := partial_failure_single_error_reply failSecondWorld "123"
      ⟨some "Welcome", some "<p>hi</p>"⟩ [] "Welcome" "<p>hi</p>"
      ["a@x.com"] "b@x.com" "boom" rfl rfl (by decide) rfl (by decide)
      (by
        intro j r hj
        cases j with
        | zero =>
          simp only [List.getElem?_cons_zero, Option.some.injEq] at hj
          subst hj
          rfl
        | succ n => simp at hj)
      rfl
  exact h

/-- C8: when every send completes, one recipient yields the
single-recipient confirmation and more than one yields the aggregate
confirmation with count and the comma-joined recipient list in order. -/
theorem success_reply_formats (w : World) (artifact_id : String)
    (a : Artifact) (rest : List Artifact) (title hb : String) (rs : List String)
    (hdb : w.db artifact_id = QueryResult.rows (a :: rest))
    (htitle : a.title = some title) (ht : title ≠ "")
    (hhtml : a.html_template = some hb) (hh : hb ≠ "")
    (hok : ∀ j r, rs[j]? = some r → w.smtp j ⟨w.username, Val.s r, title, hb⟩ = none) :
    (∀ r, rs = [r] →
      call_tool w "send_email_from_artifact"
          ⟨some (Val.l rs), none, none, none, some artifact_id⟩ =
        (["✅ Email sent from artifact!\nTo: " ++ r ++ "\nSubject: " ++ title ++
          "\nArtifact ID: " ++ artifact_id ++ "\nArtifact Title: " ++ title ++
          "\nContent length: " ++ toString hb.length ++ " characters"],
         [⟨w.username, Val.s r, title, hb⟩])) ∧
    (1 < rs.length →
      call_tool w "send_email_from_artifact"
          ⟨some (Val.l rs), none, none, none, some artifact_id⟩ =
        (["✅ Email sent from artifact to " ++ toString rs.length ++
          " recipients!\nTo: " ++ String.intercalate ", " rs ++
          "\nSubject: " ++ title ++ "\nArtifact ID: " ++ artifact_id ++
          "\nArtifact Title: " ++ title ++
          "\nContent length: " ++ toString hb.length ++ " characters"],
         rs.map (fun r => (⟨w.username, Val.s r, title, hb⟩ : SentMsg)))) := by
  have hget : get_email_artifact (w.db artifact_id) artifact_id = Except.ok a := by
    rw [hdb]; rfl
  have hloop := sendLoop_all_ok w.smtp w.username rs title hb
      ("Email from artifact " ++ artifact_id) 0 (by simpa using hok)
  constructor
  · intro r hr
    subst hr
    simp [call_tool, handle, artifact_branch, recipients_of, hget, htitle, hhtml, ht, hh,
      hloop, Val.pyStr]
  · intro hlen
    have hne : rs.length ≠ 1 := by omega
    cases rs with
    | nil => simp at hlen
    | cons r0 rs2 =>
      have hne2 : rs2 ≠ [] := by
        intro hq
        subst hq
        simp at hlen
      simp [call_tool, handle, artifact_branch, recipients_of, hget, htitle, hhtml, ht, hh,
        hloop, Val.pyStr, hne, hne2, Function.comp_def]

/-- Witness for C8: two recipients, all sends succeeding, aggregate
confirmation with count 2 and both addresses in order. -/
theorem success_reply_formats_witness :
    call_tool okWorld "send_email_from_artifact"
      ⟨some (Val.l ["a@x.com", "b@x.com"]), none, none, none, some "123"⟩ =
      (["✅ Email sent from artifact to 2 recipients!\nTo: a@x.com, b@x.com\nSubject: Welcome\nArtifact ID: 123\nArtifact Title: Welcome\nContent length: 9 characters"],
       [⟨"sender@example.com", Val.s "a@x.com", "Welcome", "<p>hi</p>"⟩,
        ⟨"sender@example.com", Val.s "b@x.com", "Welcome", "<p>hi</p>"⟩]) := by
  have h := (success_reply_formats okWorld "123"
      ⟨some "Welcome", some "<p>hi</p>"⟩ [] "Welcome" "<p>hi</p>"
      ["a@x.com", "b@x.com"] rfl rfl (by decide) rfl (by decide)
      (fun j r hj => rfl)).2 (by decide)
  exact h

/-- Every `ok` outcome of the try-body returns a one-element reply
list, matching the source's return sites. -/
theorem handle_ok_single (w : World) (nm : String) (args : Arguments)
    (ts : List String) (tr : List SentMsg)
    (hk : handle w nm args = (Except.ok ts, tr)) : ∃ t, ts = [t] := by
  unfold handle direct_branch artifact_branch at hk
  repeat' split at hk
  all_goals simp only [Prod.mk.injEq] at hk
  all_goals first
    | exact ⟨_, (Except.ok.inj hk.1).symm⟩
    | exact absurd hk.1 (by simp)

/-- C3: every call produces exactly one textual reply; any error raised
inside call handling surfaces as that reply, prefixed with the failure
marker and the error's message; an unknown tool name is one such error. -/
theorem dispatcher_single_reply (w : World) (nm : String) (args : Arguments) :
    (call_tool w nm args).1.length = 1 ∧
    (∀ e tr, handle w nm args = (Except.error e, tr) →
      (call_tool w nm args).1 = ["❌ Error: " ++ PyErr.toText e]) ∧
    (nm ≠ "send_email_direct" → nm ≠ "send_email_from_artifact" →
      (call_tool w nm args).1 = ["❌ Error: " ++ ("Unknown tool: " ++ nm)]) := by
  refine ⟨?_, ?_, ?_⟩
  · rcases hh : handle w nm args with ⟨res, tr⟩
    cases res with
    | error e => simp [call_tool, hh]
    | ok ts =>
      obtain ⟨t, ht⟩ := handle_ok_single w nm args ts tr hh
      subst ht
      simp [call_tool, hh]
  · intro e tr hh
    simp [call_tool, hh]
  · intro h1 h2
    have hh : handle w nm args =
        (Except.error (.valueError ("Unknown tool: " ++ nm)), []) := by
      unfold handle
      rw [if_neg h1, if_neg h2]
    simp [call_tool, hh, PyErr.toText]

/-- Witness for C3 at an unknown tool name. -/
theorem dispatcher_single_reply_witness :
    (call_tool okWorld "bogus" ⟨none, none, none, none, none⟩).1 =
      ["❌ Error: " ++ ("Unknown tool: " ++ "bogus")] :=
  (dispatcher_single_reply okWorld "bogus" ⟨none, none, none, none, none⟩).2.2
    (by decide) (by decide)

/-- Regrouping of the reply tail: the reported-length suffix as one
standalone piece following a prefix. -/
theorem append_shift_content (A n2 : String) :
    A ++ "\nContent length: " ++ n2 ++ " characters" =
    (A ++ "\n") ++ ("Content length: " ++ (n2 ++ " characters")) := by
  have hx : ("\n" : String) ++ "Content length: " = "\nContent length: " := rfl
  rw [← hx]
  simp only [String.append_assoc]

/-- C7: in every successful reply of either tool, the reported content
length is the character length of the HTML body of each message that
was handed to the transport. -/
theorem content_length_reported (w : World) (args : Arguments) (ts : List String)
    (tr : List SentMsg) :
    (handle w "send_email_direct" args = (Except.ok ts, tr) →
      ∀ m ∈ tr, ∃ q,
        ts = [q ++ ("Content length: " ++ (toString m.html.length ++ " characters"))]) ∧
    (handle w "send_email_from_artifact" args = (Except.ok ts, tr) →
      ∀ m ∈ tr, ∃ q,
        ts = [q ++ ("Content length: " ++ (toString m.html.length ++ " characters"))]) := by
  constructor
  · intro hk m hm
    unfold handle at hk
    rw [if_pos rfl] at hk
    unfold direct_branch at hk
    cases hto : args.«to» with
    | none => simp only [hto] at hk; simp at hk
    | some tv =>
      simp only [hto] at hk
      cases hsj : args.subject with
      | none => simp [hsj] at hk
      | some sj =>
        simp only [hsj] at hk
        cases hhc : args.html_content with
        | none => simp [hhc] at hk
        | some hc =>
          simp only [hhc] at hk
          unfold send_email at hk
          cases ho : w.smtp 0 ⟨w.username, tv, sj, hc⟩ with
          | some e => simp only [ho] at hk; simp at hk
          | none =>
            simp only [ho] at hk
            simp only [Prod.mk.injEq, Except.ok.injEq] at hk
            obtain ⟨hts, htr⟩ := hk
            subst hts
            rw [← htr] at hm
            simp only [List.mem_singleton] at hm
            subst hm
            exact ⟨_, by rw [append_shift_content]⟩
  · intro hk m hm
    unfold handle at hk
    rw [if_neg (by decide), if_pos rfl] at hk
    unfold artifact_branch at hk
    cases hto : args.«to» with
    | none => simp only [hto] at hk; simp at hk
    | some tv =>
      simp only [hto] at hk
      cases hid : args.artifact_id with
      | none => simp [hid] at hk
      | some aid =>
        simp only [hid] at hk
        cases hga : get_email_artifact (w.db aid) aid with
        | error e => simp only [hga] at hk; simp at hk
        | ok art =>
          simp only [hga] at hk
          by_cases hv : art.title.getD "" = "" ∨ art.html_template.getD "" = ""
          · rw [if_pos hv] at hk; simp at hk
          · rw [if_neg hv] at hk
            rcases hsl : sendLoop w.smtp w.username (recipients_of tv) (art.title.getD "")
                (art.html_template.getD "") ("Email from artifact " ++ aid) 0 with ⟨res, tr2⟩
            simp only [hsl] at hk
            cases res with
            | error e => simp at hk
            | ok results =>
              obtain ⟨hres, htr2⟩ := sendLoop_ok_inv w.smtp w.username (recipients_of tv)
                (art.title.getD "") (art.html_template.getD "")
                ("Email from artifact " ++ aid) 0 results tr2 hsl
              cases hrs : recipients_of tv with
              | nil =>
                rw [hrs] at hres
                subst hres
                simp at hk
              | cons r1 rl =>
                rw [hrs] at hres htr2 hk
                subst hres
                subst htr2
                cases rl with
                | nil =>
                  simp only [List.map_cons, List.map_nil, List.length_cons,
                    List.length_nil, if_pos] at hk
                  simp only [Prod.mk.injEq, Except.ok.injEq] at hk
                  obtain ⟨hts, htr⟩ := hk
                  subst hts
                  rw [← htr] at hm
                  simp only [List.map_cons, List.map_nil, List.mem_singleton] at hm
                  subst hm
                  exact ⟨_, by rw [append_shift_content]⟩
                | cons r2 rl2 =>
                  have hne : ((r1 :: r2 :: rl2 : List String).length = 1) = False := by
                    simp
                  simp only [List.map_cons, hne, if_false] at hk
                  simp only [Prod.mk.injEq, Except.ok.injEq] at hk
                  obtain ⟨hts, htr⟩ := hk
                  subst hts
                  rw [← htr] at hm
                  simp only [List.mem_cons, List.mem_map] at hm
                  rcases hm with hm | hm | hm
                  · subst hm
                    exact ⟨_, by rw [append_shift_content]⟩
                  · subst hm
                    exact ⟨_, by rw [append_shift_content]⟩
                  · obtain ⟨r, hrmem, hmr⟩ := hm
                    subst hmr
                    exact ⟨_, by rw [append_shift_content]⟩

/-- Witness for C7: a concrete successful direct send whose reply
reports length 9, the length of the transmitted `<p>hi</p>` body. -/
theorem content_length_reported_witness :
    ∃ q, ["✅ Email sent successfully!\nTo: a@x.com\nSubject: Hi\nContext: Direct email\nContent length: 9 characters"] =
      [q ++ ("Content length: " ++
        (toString ("<p>hi</p>" : String).length ++ " characters"))] :=
  (content_length_reported okWorld
      ⟨some (Val.s "a@x.com"), some "Hi", some "<p>hi</p>", none, none⟩
      ["✅ Email sent successfully!\nTo: a@x.com\nSubject: Hi\nContext: Direct email\nContent length: 9 characters"]
      [⟨"sender@example.com", Val.s "a@x.com", "Hi", "<p>hi</p>"⟩]).1 rfl
    ⟨"sender@example.com", Val.s "a@x.com", "Hi", "<p>hi</p>"⟩
    (List.mem_singleton.mpr rfl)

/-- C9 counterexample: all four required settings are present in the
environment, yet construction fails because the mail username is the
empty string (Python truthiness, not mere presence, is checked). -/
theorem init_present_but_empty_cex :
    (envEmptyUser "SMTP_USERNAME").isSome = true ∧
    (envEmptyUser "SMTP_PASSWORD").isSome = true ∧
    (envEmptyUser "SUPABASE_URL").isSome = true ∧
    (envEmptyUser "SUPABASE_KEY").isSome = true ∧
    EmailOrchestrator.init envEmptyUser =
      Except.error (PyErr.valueError
        "SMTP_USERNAME and SMTP_PASSWORD environment variables required") :=
  ⟨rfl, rfl, rfl, rfl, rfl⟩

/-- C9 amended: construction fails whenever one of the four required
settings is absent or empty; when all four are present and non-empty
and the port value (defaulting to `587`) parses as an integer, it
succeeds with host defaulting to `smtp.gmail.com`, and an absent port
yields 587. -/
theorem env_validation (env : String → Option String) :
    ((pyFalsy (env "SMTP_USERNAME") || pyFalsy (env "SMTP_PASSWORD") ||
      pyFalsy (env "SUPABASE_URL") || pyFalsy (env "SUPABASE_KEY")) = true →
      ∃ e, EmailOrchestrator.init env = Except.error e) ∧
    (∀ n, pyInt? ((env "SMTP_PORT").getD "587") = some n →
      pyFalsy (env "SMTP_USERNAME") = false → pyFalsy (env "SMTP_PASSWORD") = false →
      pyFalsy (env "SUPABASE_URL") = false → pyFalsy (env "SUPABASE_KEY") = false →
      EmailOrchestrator.init env =
        Except.ok ⟨(env "SMTP_SERVER").getD "smtp.gmail.com", n,
          env "SMTP_USERNAME", env "SMTP_PASSWORD",
          env "SUPABASE_URL", env "SUPABASE_KEY"⟩ ∧
      (env "SMTP_PORT" = none → n = 587)) := by
  constructor
  · intro hfal
    unfold EmailOrchestrator.init
    cases hport : pyInt? ((env "SMTP_PORT").getD "587") with
    | none => exact ⟨_, rfl⟩
    | some p =>
      by_cases h1 : (pyFalsy (env "SMTP_USERNAME") || pyFalsy (env "SMTP_PASSWORD")) = true
      · refine ⟨PyErr.valueError
          "SMTP_USERNAME and SMTP_PASSWORD environment variables required", ?_⟩
        simp [h1]
      · have h2 : (pyFalsy (env "SUPABASE_URL") || pyFalsy (env "SUPABASE_KEY")) = true := by
          rcases Bool.or_eq_true_iff.mp hfal with hx | hx
          · rcases Bool.or_eq_true_iff.mp hx with hy | hy
            · rcases Bool.or_eq_true_iff.mp hy with hz | hz
              · exact absurd (Bool.or_eq_true_iff.mpr (Or.inl hz)) h1
              · exact absurd (Bool.or_eq_true_iff.mpr (Or.inr hz)) h1
            · exact Bool.or_eq_true_iff.mpr (Or.inl hy)
          · exact Bool.or_eq_true_iff.mpr (Or.inr hx)
        refine ⟨PyErr.valueError
          "SUPABASE_URL and SUPABASE_KEY environment variables required", ?_⟩
        simp [h1, h2]
  · intro n hport h1 h2 h3 h4
    constructor
    · unfold EmailOrchestrator.init
      simp only [hport]
      rw [if_neg (by rw [h1, h2]; simp), if_neg (by rw [h3, h4]; simp)]
    · intro hnone
      rw [hnone] at hport
      have h587 : pyInt? (Option.getD none "587") = some 587 := rfl
      rw [h587] at hport
      exact (Option.some.inj hport).symm

/-- Witness for C9: a complete environment without host or port set
yields the default host and port 587. -/
theorem env_validation_witness :
    EmailOrchestrator.init envGood =
      Except.ok ⟨"smtp.gmail.com", 587, some "user", some "pw",
        some "https://db.example", some "key"⟩ :=
  ((env_validation envGood).2 587 rfl rfl rfl rfl rfl).1
